import Mathlib

/-!
Shallow embedding of `library/database/mongodb_replset.py`, an Ansible module
that initiates a MongoDB replica set or adds new members to an existing one.

The pure data manipulations (`join_colon`, `format_hosts`, `add_members`,
`replset_initiate`) are translated directly from the source.  The stateful
control loop in `main` is modelled as a function of the externally observed
state: the current replica-set config document, the live member set reported
by the driver (`client.hosts`), and the outcomes of the driver calls
(connect, authenticate, replSetReconfig), which are external collaborators.

Python's `set` iteration order is unspecified; wherever the source iterates
over a set (the `for host in (set(new_hosts) - set(curr_hosts))` loop of
`add_members`), the model takes the enumeration as an explicit argument
`iter` constrained by `IsSetIter` to enumerate exactly that set difference,
without duplicates, in some order.
-/

/-- Source function `join_colon`: `':'.join(str(s) for s in iterable)`
applied to a (hostname, port) pair. -/
def join_colon (hp : String × Nat) : String :=
  hp.1 ++ ":" ++ toString hp.2

/-- Source function `format_hosts(members)`: list of `host:port` strings. -/
def format_hosts (members : List (String × Nat)) : List String :=
  members.map join_colon

/-- One entry of the `members` array of a replica-set config document:
`{'_id': <int>, 'host': <str>}`. -/
structure Member where
  _id : Int
  host : String
  deriving Repr, DecidableEq

/-- The replica-set config document returned by `replset_conf` (i.e.
`client['local'].system.replset.find_one()`): `_id` is the set name,
`version` the revision counter, `members` the member entries. -/
structure ReplsetConf where
  _id : String
  version : Int
  members : List Member
  deriving Repr, DecidableEq

/-- The config document submitted by `replset_initiate`:
`{'_id': name, 'members': hosts}` (no `version` field). -/
structure InitiateConf where
  _id : String
  members : List Member
  deriving Repr, DecidableEq

/-- Model of Python `max` over a list of ints: undefined (raises `ValueError`) on
the empty list, modelled as `none`. -/
def list_max : List Int → Option Int
  | [] => none
  | x :: xs => some (xs.foldl max x)

/-- The body of the `for host in ...` loop of `add_members`: starting from
`new_id`, append `{'_id': new_id, 'host': host}` for each enumerated host,
incrementing `new_id` after each. Returns the appended entries. -/
def addLoop : Int → List String → List Member
  | _, [] => []
  | i, h :: t => ⟨i, h⟩ :: addLoop (i + 1) t

/-- Predicate: `iter` is a valid Python iteration of `set(news) - set(currs)`:
duplicate-free and enumerating exactly the set difference.  The order is
unspecified by the language, hence left free. -/
def IsSetIter (iter news currs : List String) : Prop :=
  iter.Nodup ∧ iter.toFinset = news.toFinset \ currs.toFinset

set_option linter.unusedVariables false

/-- Source function `add_members(client, members)`.  Reads the config
(`conf`), computes `new_id = max(ids) + 1` (`none` when `conf['members']`
is empty, where Python raises `ValueError`), appends one entry per element
of the set difference `set(format_hosts members) - set(curr_hosts)` — whose
enumeration order is the argument `iter` — and bumps `version` by one.
Returns the config submitted to `replSetReconfig`. -/
def add_members (conf : ReplsetConf) (members : List (String × Nat))
    (iter : List String) : Option ReplsetConf :=
  match list_max (conf.members.map Member._id) with
  | none => none
  | some m =>
      some { conf with
              members := conf.members ++ addLoop (m + 1) iter,
              version := conf.version + 1 }

/-- Source function `replset_initiate(client, name, members)`:
`hosts = [{'_id': idx, 'host': join_colon(val)} for idx, val in enumerate(members)]`
and the submitted config is `{'_id': name, 'members': hosts}`. -/
def replset_initiate (name : String) (members : List (String × Nat)) :
    InitiateConf :=
  ⟨name, members.enum.map fun p => ⟨(p.1 : Int), join_colon p.2⟩⟩

/-- Outcome of the `if initiated:` branch of `main`: either `exit_json`
(with the `changed` flag and `added_hosts=format_hosts(new_hosts)`), or one
of the `fail_json` calls, or an uncaught exception (`crash`, the
`ValueError` from `max` on an empty member list).  Host lists built from
Python sets are modelled as `Finset String` since their formatting order is
unspecified. -/
inductive RunResult where
  | exitOk (changed : Bool) (added_hosts : Finset String)
  | failRemoval (absent_hosts : Finset String)
  | failAdd (msg : String) (new_hosts : Finset String)
  | crash
  deriving DecidableEq

/-- Result of one pass of the initiated branch together with the config
document submitted via `replSetReconfig`, if any. -/
structure ReconcileOutcome where
  result : RunResult
  submitted : Option ReplsetConf
  deriving DecidableEq

/-- The cluster adopts a submitted reconfiguration; with no submission the
config document is untouched. -/
def cluster_after (conf : ReplsetConf) (submitted : Option ReplsetConf) :
    ReplsetConf :=
  match submitted with
  | none => conf
  | some c => c

/-- The `if initiated:` branch of `main`, lines 194–215 of the source.
`live` is `client.hosts` (the member set reported by the driver), `nodes`
the parsed desired host list, `conf` the current config document read by
`add_members`, `iter` the set-iteration order used inside `add_members`,
and `reconfigError` the driver outcome of the `replSetReconfig` command
(`some e` models an `OperationFailure` with message `e`). -/
def main_initiated (conf : ReplsetConf) (live : Finset (String × Nat))
    (nodes : List (String × Nat)) (iter : List String)
    (reconfigError : Option String) : ReconcileOutcome :=
  let absent_hosts := live \ nodes.toFinset
  let new_hosts := nodes.toFinset \ live
  if absent_hosts ≠ ∅ then
    ⟨.failRemoval (absent_hosts.image join_colon), none⟩
  else if new_hosts ≠ ∅ then
    match add_members conf nodes iter with
    | none => ⟨.crash, none⟩
    | some newConf =>
        match reconfigError with
        | some e => ⟨.failAdd e (new_hosts.image join_colon), none⟩
        | none => ⟨.exitOk true (new_hosts.image join_colon), some newConf⟩
  else ⟨.exitOk false (new_hosts.image join_colon), none⟩

/-- Outcome of the `MongoReplicaSetClient(...)` call at the start of
`main`'s try block. -/
inductive ConnectResult where
  | ok
  | configurationError (msg : String)
  | connectionFailure (msg : String)
  deriving Repr, DecidableEq

/-- Discovery outcome: `initiated` / `uninitiated` select the reconfigure /
initiate paths; the `fatal*` constructors are the two `fail_json` calls of
the connect phase. -/
inductive Discovery where
  | initiated
  | uninitiated
  | fatalConnect (msg : String)
  | fatalDatabase (msg : String)
  deriving Repr, DecidableEq

/-- Decides whether `needle` is an initial segment of `hay`. -/
def startsWithChars : List Char → List Char → Bool
  | [], _ => true
  | _ :: _, [] => false
  | a :: as, b :: bs => a == b && startsWithChars as bs

/-- Decides whether `needle` occurs contiguously in `hay`. -/
def hasSubChars (needle : List Char) : List Char → Bool
  | [] => startsWithChars needle []
  | l@(_ :: bs) => startsWithChars needle l || hasSubChars needle bs

/-- Model of the Python expression `needle in hay` on strings. -/
def strContains (needle hay : String) : Bool :=
  hasSubChars needle.data hay.data

/-- The substring `main` looks for in the `ConfigurationError` message to
detect an uninitiated node. -/
def notMemberMsg : String := "is not a member of replica set"

/-- Lines 174–192 of `main`: try `MongoReplicaSetClient`; on
`ConfigurationError` whose message contains `notMemberMsg`, fall back to a
direct `MongoClient` connection (`direct` is `some m` when that fallback
raises `ConnectionFailure m`, caught by the outer handler); any other
`ConfigurationError` triggers `fail_json("Unable to connect: ...")`; a
`ConnectionFailure` propagates to the outer handler
(`fail_json("unable to connect to database: ...")`). -/
def discover (r : ConnectResult) (direct : Option String) : Discovery :=
  match r with
  | .ok => .initiated
  | .configurationError msg =>
      if strContains notMemberMsg msg then
        match direct with
        | none => .uninitiated
        | some m => .fatalDatabase ("unable to connect to database: " ++ m)
      else .fatalConnect ("Unable to connect: " ++ msg)
  | .connectionFailure msg =>
      .fatalDatabase ("unable to connect to database: " ++ msg)

/-- Outcome of `client.admin.authenticate(user, password)`. -/
inductive AuthResult where
  | ok
  | operationFailure (msg : String)
  | connectionFailure (msg : String)
  deriving Repr, DecidableEq

/-- Truthiness (as in Python) of an optional string parameter (`None` and
the empty string are falsy). -/
def truthy : Option String → Bool
  | none => false
  | some s => !(s == "")

/-- Number of `authenticate` calls made by `main` for given credentials:
the single call guarded by `if user and password:`. -/
def auth_attempts (user password : Option String) : Nat :=
  if truthy user && truthy password then 1 else 0

/-- Lines 185–189 of `main`: the guarded authenticate step, threaded in
front of a continuation `k` (the rest of the run).  `OperationFailure` is
caught and ignored (`pass`); a `ConnectionFailure` raised by `authenticate`
reaches the outer handler and is fatal. -/
def after_auth (user password : Option String) (a : AuthResult)
    (k : ReconcileOutcome) : Except String ReconcileOutcome :=
  if truthy user && truthy password then
    match a with
    | .ok => .ok k
    | .operationFailure _ => .ok k
    | .connectionFailure m =>
        .error ("unable to connect to database: " ++ m)
  else .ok k

/-! Helper lemmas about `list_max` and `addLoop`. -/

lemma le_foldl_max (xs : List Int) (x : Int) : x ≤ xs.foldl max x := by
  induction xs generalizing x with
  | nil => exact le_refl x
  | cons a t ih => exact le_trans (le_max_left x a) (ih (max x a))

lemma mem_le_foldl_max (xs : List Int) (x y : Int) (hy : y ∈ xs) :
    y ≤ xs.foldl max x := by
  induction xs generalizing x with
  | nil => cases hy
  | cons a t ih =>
      rcases List.mem_cons.mp hy with h | h
      · subst h
        exact le_trans (le_max_right x y) (le_foldl_max t _)
      · exact ih _ h

lemma list_max_ge (l : List Int) (M : Int) (h : list_max l = some M) :
    ∀ y ∈ l, y ≤ M := by
  cases l with
  | nil => simp [list_max] at h
  | cons x xs =>
      simp only [list_max, Option.some.injEq] at h
      subst h
      intro y hy
      rcases List.mem_cons.mp hy with h | h
      · subst h
        exact le_foldl_max xs y
      · exact mem_le_foldl_max xs x y h

lemma list_max_eq_none_iff (l : List Int) : list_max l = none ↔ l = [] := by
  cases l <;> simp [list_max]

lemma addLoop_hosts (i : Int) (xs : List String) :
    (addLoop i xs).map Member.host = xs := by
  induction xs generalizing i with
  | nil => rfl
  | cons h t ih => simp [addLoop, ih]

lemma addLoop_ids (i : Int) (xs : List String) :
    (addLoop i xs).map Member._id =
      (List.range xs.length).map (fun k : Nat => i + (k : Int)) := by
  induction xs generalizing i with
  | nil => rfl
  | cons h t ih =>
      simp only [addLoop, List.map_cons, ih, List.length_cons,
        List.range_succ_eq_map, List.map_map]
      congr 1
      · simp
      · apply List.map_congr_left
        intro k _
        simp [Function.comp]
        ring

lemma addLoop_id_ge (i : Int) (xs : List String) :
    ∀ m ∈ addLoop i xs, i ≤ m._id := by
  induction xs generalizing i with
  | nil => intro m hm; cases hm
  | cons h t ih =>
      intro m hm
      rcases List.mem_cons.mp hm with h1 | h1
      · subst h1; exact le_refl i
      · exact le_trans (by omega) (ih (i + 1) m h1)

lemma addLoop_ids_nodup (i : Int) (xs : List String) :
    ((addLoop i xs).map Member._id).Nodup := by
  rw [addLoop_ids]
  exact (List.nodup_range _).map (fun a b hab => by omega)

lemma IsSetIter.not_mem_currs {iter news currs : List String}
    (h : IsSetIter iter news currs) (a : String) (ha : a ∈ iter) :
    a ∉ currs := by
  have : a ∈ iter.toFinset := List.mem_toFinset.mpr ha
  rw [h.2, Finset.mem_sdiff] at this
  exact fun hc => this.2 (List.mem_toFinset.mpr hc)


/-- C2: in a single `add_members` pass the newly appended members carry ids
`max(existing) + 1, max(existing) + 2, ...` — a consecutive, duplicate-free
run — and every new id is strictly greater than every pre-existing id (so
none collides with an existing id). -/
theorem c2_monotonic_ids (conf : ReplsetConf) (members : List (String × Nat))
    (iter : List String) (newConf : ReplsetConf) (M : Int)
    (hM : list_max (conf.members.map Member._id) = some M)
    (h : add_members conf members iter = some newConf) :
    (newConf.members.drop conf.members.length).map Member._id =
        (List.range iter.length).map (fun k : Nat => M + 1 + (k : Int)) ∧
    ((newConf.members.drop conf.members.length).map Member._id).Nodup ∧
    ∀ m ∈ newConf.members.drop conf.members.length,
      ∀ old ∈ conf.members, old._id < m._id := by
  simp only [add_members, hM, Option.some.injEq] at h
  subst h
  simp only [List.drop_left]
  refine ⟨addLoop_ids (M + 1) iter, addLoop_ids_nodup (M + 1) iter, ?_⟩
  intro m hm old hold
  have h1 : old._id ≤ M :=
    list_max_ge _ M hM old._id (List.mem_map_of_mem Member._id hold)
  have h2 : M + 1 ≤ m._id := addLoop_id_ge (M + 1) iter m hm
  omega

/-- Witness for C2 at a concrete pass: existing ids `0, 2` (max `2`), one
new host `m2:27017`, which receives id `3`. -/
theorem c2_monotonic_ids_witness :
    list_max ((⟨"rs0", 1, [⟨0, "m0:27017"⟩, ⟨2, "m1:27017"⟩]⟩ :
        ReplsetConf).members.map Member._id) = some 2 ∧
    add_members ⟨"rs0", 1, [⟨0, "m0:27017"⟩, ⟨2, "m1:27017"⟩]⟩
        [("m0", 27017), ("m1", 27017), ("m2", 27017)] ["m2:27017"] =
      some ⟨"rs0", 2, [⟨0, "m0:27017"⟩, ⟨2, "m1:27017"⟩, ⟨3, "m2:27017"⟩]⟩ ∧
    (((⟨"rs0", 2, [⟨0, "m0:27017"⟩, ⟨2, "m1:27017"⟩, ⟨3, "m2:27017"⟩]⟩ :
          ReplsetConf).members.drop 2).map Member._id =
        (List.range (["m2:27017"] : List String).length).map
          (fun k : Nat => (2 : Int) + 1 + (k : Int)) ∧
      (((⟨"rs0", 2, [⟨0, "m0:27017"⟩, ⟨2, "m1:27017"⟩, ⟨3, "m2:27017"⟩]⟩ :
          ReplsetConf).members.drop 2).map Member._id).Nodup ∧
      ∀ m ∈ (⟨"rs0", 2, [⟨0, "m0:27017"⟩, ⟨2, "m1:27017"⟩, ⟨3, "m2:27017"⟩]⟩ :
          ReplsetConf).members.drop 2,
        ∀ old ∈ (⟨"rs0", 1, [⟨0, "m0:27017"⟩, ⟨2, "m1:27017"⟩]⟩ :
            ReplsetConf).members, old._id < m._id) :=
  ⟨by decide, by decide,
    c2_monotonic_ids ⟨"rs0", 1, [⟨0, "m0:27017"⟩, ⟨2, "m1:27017"⟩]⟩
      [("m0", 27017), ("m1", 27017), ("m2", 27017)] ["m2:27017"]
      ⟨"rs0", 2, [⟨0, "m0:27017"⟩, ⟨2, "m1:27017"⟩, ⟨3, "m2:27017"⟩]⟩ 2
      (by decide) (by decide)⟩

/-- C6: every config submitted by `add_members` to `replSetReconfig`
carries `version` exactly one greater than the version read at the start of
the pass (`conf['version'] += 1`). -/
theorem c6_version_increment (conf : ReplsetConf)
    (members : List (String × Nat)) (iter : List String)
    (newConf : ReplsetConf)
    (h : add_members conf members iter = some newConf) :
    newConf.version = conf.version + 1 := by
  cases hM : list_max (conf.members.map Member._id) with
  | none => simp [add_members, hM] at h
  | some m =>
      simp only [add_members, hM, Option.some.injEq] at h
      subst h
      rfl

/-- Witness for C6 at a concrete pass: version `7` becomes `8`. -/
theorem c6_version_increment_witness :
    add_members ⟨"rs0", 7, [⟨0, "m0:27017"⟩]⟩ [("m1", 27017)] ["m1:27017"] =
      some ⟨"rs0", 8, [⟨0, "m0:27017"⟩, ⟨1, "m1:27017"⟩]⟩ ∧
    (⟨"rs0", 8, [⟨0, "m0:27017"⟩, ⟨1, "m1:27017"⟩]⟩ : ReplsetConf).version =
      (⟨"rs0", 7, [⟨0, "m0:27017"⟩]⟩ : ReplsetConf).version + 1 :=
  ⟨by decide,
    c6_version_increment ⟨"rs0", 7, [⟨0, "m0:27017"⟩]⟩ [("m1", 27017)]
      ["m1:27017"] ⟨"rs0", 8, [⟨0, "m0:27017"⟩, ⟨1, "m1:27017"⟩]⟩ (by decide)⟩

/-- C10: `add_members` fails (the `max(...)` over existing ids raises
`ValueError`) exactly when the current config's member list is empty; under
the precondition that at least one member exists, that error branch is
unreachable and the pass succeeds. -/
theorem c10_add_members_total_iff (conf : ReplsetConf)
    (members : List (String × Nat)) (iter : List String) :
    add_members conf members iter = none ↔ conf.members = [] := by
  cases hc : conf.members with
  | nil => simp [add_members, hc, list_max]
  | cons a t => simp [add_members, hc, list_max]

/-- C5: `replset_initiate` builds the initial config from `enumerate`:
member ids are `0 .. n-1` assigned in the declared order of the desired
list, the hosts in declared order, and the set name is carried in `_id`. -/
theorem c5_initiate_sequential_ids (name : String)
    (ms : List (String × Nat)) :
    (replset_initiate name ms)._id = name ∧
    (replset_initiate name ms).members.map Member._id =
        (List.range ms.length).map Int.ofNat ∧
    (replset_initiate name ms).members.map Member.host = format_hosts ms := by
  refine ⟨rfl, ?_, ?_⟩
  · rw [← List.enum_map_fst ms, List.map_map]
    simp only [replset_initiate, List.map_map]
    exact List.map_congr_left fun p _ => rfl
  · show _ = List.map join_colon ms
    conv_rhs => rw [← List.enum_map_snd ms, List.map_map]
    simp only [replset_initiate, List.map_map]
    exact List.map_congr_left fun p _ => rfl

/-- Current config for the C4 counterexample: one existing member
`c:27017` with id `0`. -/
def c4conf : ReplsetConf := ⟨"rs0", 1, [⟨0, "c:27017"⟩]⟩

/-- Desired host list for the C4 counterexample, declared order
`a, b, c`. -/
def c4nodes : List (String × Nat) := [("a", 27017), ("b", 27017), ("c", 27017)]

/-- A valid iteration of `set(new_hosts) - set(curr_hosts)` for the C4
counterexample that enumerates `b:27017` before `a:27017`. -/
def c4iter : List String := ["b:27017", "a:27017"]

/-- C4 counterexample: `add_members` iterates over the Python set
`set(new_hosts) - set(curr_hosts)`, whose order is unspecified, not over
the desired list.  With desired order `a, b, c` (missing hosts `a, b` in
that declared order) and the perfectly valid set enumeration `b, a`, host
`b:27017` receives the smallest new id `1` and the declared-first missing
host `a:27017` receives `2` — the mapping does not follow the declared
order. -/
theorem c4_declared_order_counterexample :
    IsSetIter c4iter (format_hosts c4nodes) (c4conf.members.map Member.host) ∧
    (format_hosts c4nodes).filter
        (fun h => !((c4conf.members.map Member.host).contains h)) =
      ["a:27017", "b:27017"] ∧
    add_members c4conf c4nodes c4iter =
      some ⟨"rs0", 2, [⟨0, "c:27017"⟩, ⟨1, "b:27017"⟩, ⟨2, "a:27017"⟩]⟩ :=
  ⟨⟨by decide, by decide⟩, by decide, by decide⟩

/-- C4 amended: in a single `add_members` pass the new ids are assigned
consecutively from `max(existing) + 1` following the iteration order of
the Python set `set(new_hosts) - set(curr_hosts)` — an order the language
leaves unspecified — not the desired list's declared order; the host at
position `k` of that enumeration receives id `max + 1 + k`, so allocation
is deterministic only once the set-iteration order is fixed. -/
theorem c4_iteration_order_determines_ids (conf : ReplsetConf)
    (members : List (String × Nat)) (iter : List String)
    (newConf : ReplsetConf) (M : Int)
    (hiter : IsSetIter iter (format_hosts members)
      (conf.members.map Member.host))
    (hM : list_max (conf.members.map Member._id) = some M)
    (h : add_members conf members iter = some newConf) :
    newConf.members = conf.members ++ addLoop (M + 1) iter ∧
    (addLoop (M + 1) iter).map Member.host = iter ∧
    (addLoop (M + 1) iter).map Member._id =
      (List.range iter.length).map (fun k : Nat => M + 1 + (k : Int)) := by
  simp only [add_members, hM, Option.some.injEq] at h
  subst h
  exact ⟨rfl, addLoop_hosts (M + 1) iter, addLoop_ids (M + 1) iter⟩

/-- Witness for the amended C4 at the counterexample's inputs. -/
theorem c4_iteration_order_determines_ids_witness :
    IsSetIter c4iter (format_hosts c4nodes) (c4conf.members.map Member.host) ∧
    list_max (c4conf.members.map Member._id) = some 0 ∧
    add_members c4conf c4nodes c4iter =
      some ⟨"rs0", 2, [⟨0, "c:27017"⟩, ⟨1, "b:27017"⟩, ⟨2, "a:27017"⟩]⟩ ∧
    ((⟨"rs0", 2, [⟨0, "c:27017"⟩, ⟨1, "b:27017"⟩, ⟨2, "a:27017"⟩]⟩ :
        ReplsetConf).members = c4conf.members ++ addLoop (0 + 1) c4iter ∧
      (addLoop (0 + 1) c4iter).map Member.host = c4iter ∧
      (addLoop (0 + 1) c4iter).map Member._id =
        (List.range c4iter.length).map (fun k : Nat => (0 : Int) + 1 + (k : Int))) :=
  ⟨⟨by decide, by decide⟩, by decide, by decide,
    c4_iteration_order_determines_ids c4conf c4nodes c4iter
      ⟨"rs0", 2, [⟨0, "c:27017"⟩, ⟨1, "b:27017"⟩, ⟨2, "a:27017"⟩]⟩ 0
      ⟨by decide, by decide⟩ (by decide) (by decide)⟩

/-- C7 counterexample: `replset_initiate` submits the desired list as-is —
`split_hosts` and `enumerate` perform no deduplication — so a desired list
with a duplicated `host:port` entry produces a config with two member
entries for the same `host:port` (ids `0` and `1`). -/
theorem c7_duplicate_initiate_counterexample :
    replset_initiate "rs0" [("m0", 27017), ("m0", 27017)] =
      ⟨"rs0", [⟨0, "m0:27017"⟩, ⟨1, "m0:27017"⟩]⟩ ∧
    ¬ ((replset_initiate "rs0" [("m0", 27017), ("m0", 27017)]).members.map
        Member.host).Nodup :=
  ⟨by decide, by decide⟩

/-- C7 amended: only the reconfigure path behaves as if each distinct
`host:port` appeared once — the diff and the add loop go through Python
sets, so `add_members` appends each distinct missing host exactly once
even when the desired list repeats it, and a duplicate-free current config
stays duplicate-free.  The initiate path performs no deduplication. -/
theorem c7_reconfigure_path_dedup (conf : ReplsetConf)
    (members : List (String × Nat)) (iter : List String)
    (newConf : ReplsetConf)
    (hcurr : (conf.members.map Member.host).Nodup)
    (hiter : IsSetIter iter (format_hosts members)
      (conf.members.map Member.host))
    (h : add_members conf members iter = some newConf) :
    (newConf.members.map Member.host).Nodup := by
  cases hM : list_max (conf.members.map Member._id) with
  | none => simp [add_members, hM] at h
  | some m =>
      simp only [add_members, hM, Option.some.injEq] at h
      subst h
      show ((conf.members ++ addLoop (m + 1) iter).map Member.host).Nodup
      rw [List.map_append, addLoop_hosts, List.nodup_append]
      exact ⟨hcurr, hiter.1,
        fun a ha hb => hiter.not_mem_currs a hb ha⟩

/-- Witness for the amended C7: the desired list repeats `a:27017`, yet the
reconfigured member list carries it once. -/
theorem c7_reconfigure_path_dedup_witness :
    ((⟨"rs0", 1, [⟨0, "c:27017"⟩]⟩ : ReplsetConf).members.map
        Member.host).Nodup ∧
    IsSetIter ["a:27017"] (format_hosts [("a", 27017), ("a", 27017)])
      ((⟨"rs0", 1, [⟨0, "c:27017"⟩]⟩ : ReplsetConf).members.map
        Member.host) ∧
    add_members ⟨"rs0", 1, [⟨0, "c:27017"⟩]⟩ [("a", 27017), ("a", 27017)]
        ["a:27017"] =
      some ⟨"rs0", 2, [⟨0, "c:27017"⟩, ⟨1, "a:27017"⟩]⟩ ∧
    ((⟨"rs0", 2, [⟨0, "c:27017"⟩, ⟨1, "a:27017"⟩]⟩ :
        ReplsetConf).members.map Member.host).Nodup :=
  ⟨by decide, ⟨by decide, by decide⟩, by decide,
    c7_reconfigure_path_dedup ⟨"rs0", 1, [⟨0, "c:27017"⟩]⟩
      [("a", 27017), ("a", 27017)] ["a:27017"]
      ⟨"rs0", 2, [⟨0, "c:27017"⟩, ⟨1, "a:27017"⟩]⟩ (by decide)
      ⟨by decide, by decide⟩ (by decide)⟩

/-- C1: whenever the desired topology is a strict subset of the live
membership, the initiated branch takes the `absent_hosts` test first and
calls `fail_json` with the offending host list; `add_members` is never
reached, nothing is submitted to `replSetReconfig`, and the config
document — its `version` included — is untouched. -/
theorem c1_no_silent_removal (conf : ReplsetConf)
    (live : Finset (String × Nat)) (nodes : List (String × Nat))
    (iter : List String) (reconfigError : Option String)
    (h : nodes.toFinset ⊂ live) :
    main_initiated conf live nodes iter reconfigError =
      ⟨.failRemoval ((live \ nodes.toFinset).image join_colon), none⟩ ∧
    (live \ nodes.toFinset).Nonempty ∧
    cluster_after conf
      (main_initiated conf live nodes iter reconfigError).submitted = conf ∧
    (cluster_after conf
      (main_initiated conf live nodes iter reconfigError).submitted).version =
      conf.version := by
  have hne : (live \ nodes.toFinset).Nonempty := by
    obtain ⟨x, hx, hnx⟩ := Finset.exists_of_ssubset h
    exact ⟨x, Finset.mem_sdiff.mpr ⟨hx, hnx⟩⟩
  have habs : live \ nodes.toFinset ≠ ∅ :=
    Finset.nonempty_iff_ne_empty.mp hne
  have hmain : main_initiated conf live nodes iter reconfigError =
      ⟨.failRemoval ((live \ nodes.toFinset).image join_colon), none⟩ := by
    simp only [main_initiated]
    rw [if_pos habs]
  exact ⟨hmain, hne, by rw [hmain]; rfl, by rw [hmain]; rfl⟩

/-- Witness for C1: desired `m0` only, against live members `m0, m1`. -/
theorem c1_no_silent_removal_witness :
    ([("m0", 27017)] : List (String × Nat)).toFinset ⊂
      ({("m0", 27017), ("m1", 27017)} : Finset (String × Nat)) ∧
    (main_initiated ⟨"rs0", 3, [⟨0, "m0:27017"⟩, ⟨1, "m1:27017"⟩]⟩
        {("m0", 27017), ("m1", 27017)} [("m0", 27017)] [] none =
      ⟨.failRemoval ((({("m0", 27017), ("m1", 27017)} : Finset (String × Nat)) \
          ([("m0", 27017)] : List (String × Nat)).toFinset).image join_colon),
        none⟩ ∧
      ((({("m0", 27017), ("m1", 27017)} : Finset (String × Nat)) \
          ([("m0", 27017)] : List (String × Nat)).toFinset)).Nonempty ∧
      cluster_after ⟨"rs0", 3, [⟨0, "m0:27017"⟩, ⟨1, "m1:27017"⟩]⟩
        (main_initiated ⟨"rs0", 3, [⟨0, "m0:27017"⟩, ⟨1, "m1:27017"⟩]⟩
          {("m0", 27017), ("m1", 27017)} [("m0", 27017)] [] none).submitted =
        ⟨"rs0", 3, [⟨0, "m0:27017"⟩, ⟨1, "m1:27017"⟩]⟩ ∧
      (cluster_after ⟨"rs0", 3, [⟨0, "m0:27017"⟩, ⟨1, "m1:27017"⟩]⟩
        (main_initiated ⟨"rs0", 3, [⟨0, "m0:27017"⟩, ⟨1, "m1:27017"⟩]⟩
          {("m0", 27017), ("m1", 27017)} [("m0", 27017)] [] none).submitted).version =
        (⟨"rs0", 3, [⟨0, "m0:27017"⟩, ⟨1, "m1:27017"⟩]⟩ : ReplsetConf).version) :=
  ⟨by decide,
    c1_no_silent_removal ⟨"rs0", 3, [⟨0, "m0:27017"⟩, ⟨1, "m1:27017"⟩]⟩
      {("m0", 27017), ("m1", 27017)} [("m0", 27017)] [] none (by decide)⟩

/-- Both diff sets empty: nothing is submitted and the branch exits with
`changed = false`. -/
lemma main_initiated_noop (conf : ReplsetConf) (live : Finset (String × Nat))
    (nodes : List (String × Nat)) (iter : List String)
    (reconfigError : Option String)
    (h1 : live \ nodes.toFinset = ∅) (h2 : nodes.toFinset \ live = ∅) :
    main_initiated conf live nodes iter reconfigError =
      ⟨.exitOk false ∅, none⟩ := by
  simp only [main_initiated]
  rw [if_neg (fun hne => hne h1), if_neg (fun hne => hne h2), h2,
    Finset.image_empty]

/-- C3: when the diff between desired and live membership is empty in both
directions, the initiated branch submits nothing and exits with
`changed = false`; consequently a second run of the reconciler — against
the membership produced by any successful first run, with the same desired
list — always reports `changed = false` and submits nothing. -/
theorem c3_idempotent_noop (conf : ReplsetConf)
    (live : Finset (String × Nat)) (nodes : List (String × Nat))
    (iter : List String) (reconfigError : Option String) :
    (live \ nodes.toFinset = ∅ → nodes.toFinset \ live = ∅ →
      main_initiated conf live nodes iter reconfigError =
        ⟨.exitOk false ∅, none⟩) ∧
    (∀ (conf₂ : ReplsetConf) (iter₂ : List String)
        (reconfigError₂ : Option String) (changed : Bool)
        (added : Finset String),
      (main_initiated conf live nodes iter reconfigError).result =
          .exitOk changed added →
      main_initiated conf₂ (live ∪ (nodes.toFinset \ live)) nodes iter₂
          reconfigError₂ = ⟨.exitOk false ∅, none⟩) := by
  constructor
  · intro h1 h2
    exact main_initiated_noop conf live nodes iter reconfigError h1 h2
  · intro conf₂ iter₂ reconfigError₂ changed added hres
    have habs : live \ nodes.toFinset = ∅ := by
      by_contra hcon
      simp only [main_initiated] at hres
      rw [if_pos hcon] at hres
      cases hres
    have e1 : (live ∪ (nodes.toFinset \ live)) \ nodes.toFinset = ∅ := by
      rw [Finset.eq_empty_iff_forall_not_mem] at habs ⊢
      intro x hx
      rw [Finset.mem_sdiff, Finset.mem_union, Finset.mem_sdiff] at hx
      rcases hx.1 with h | h
      · exact habs x (Finset.mem_sdiff.mpr ⟨h, hx.2⟩)
      · exact hx.2 h.1
    have e2 : nodes.toFinset \ (live ∪ (nodes.toFinset \ live)) = ∅ := by
      rw [Finset.eq_empty_iff_forall_not_mem]
      intro x hx
      rw [Finset.mem_sdiff, Finset.mem_union, Finset.mem_sdiff] at hx
      by_cases hl : x ∈ live
      · exact hx.2 (Or.inl hl)
      · exact hx.2 (Or.inr ⟨hx.1, hl⟩)
    exact main_initiated_noop conf₂ _ nodes iter₂ reconfigError₂ e1 e2

/-- Witness for C3: a no-diff run exits unchanged, and a run that added
`m1:27017` is followed by a second run reporting `changed = false`. -/
theorem c3_idempotent_noop_witness :
    main_initiated ⟨"rs0", 1, [⟨0, "m0:27017"⟩]⟩
      {("m0", 27017)} [("m0", 27017)] [] none = ⟨.exitOk false ∅, none⟩ ∧
    main_initiated ⟨"rs0", 2, []⟩
      ({("m0", 27017)} ∪
        (([("m0", 27017), ("m1", 27017)] : List (String × Nat)).toFinset \
          {("m0", 27017)}))
      [("m0", 27017), ("m1", 27017)] [] none = ⟨.exitOk false ∅, none⟩ :=
  ⟨(c3_idempotent_noop ⟨"rs0", 1, [⟨0, "m0:27017"⟩]⟩ {("m0", 27017)}
      [("m0", 27017)] [] none).1 (by decide) (by decide),
    (c3_idempotent_noop ⟨"rs0", 1, [⟨0, "m0:27017"⟩]⟩ {("m0", 27017)}
      [("m0", 27017), ("m1", 27017)] ["m1:27017"] none).2
      ⟨"rs0", 2, []⟩ [] none true
      ((({("m0", 27017), ("m1", 27017)} : Finset (String × Nat)) \
          {("m0", 27017)}).image join_colon) (by decide)⟩

/-- C8: exactly one connect failure selects the initiate path — a
`ConfigurationError` whose message contains
`'is not a member of replica set'`, followed by a successful direct
connection; every other connect failure produces one of the two
`fail_json` aborts, with no retry. -/
theorem c8_discovery_classification (r : ConnectResult)
    (direct : Option String) :
    (discover r direct = .uninitiated ↔
      (∃ msg, r = .configurationError msg ∧
        strContains notMemberMsg msg = true) ∧ direct = none) ∧
    (discover r direct = .initiated ↔ r = .ok) ∧
    (∀ msg, r = .configurationError msg →
      strContains notMemberMsg msg = false →
      discover r direct = .fatalConnect ("Unable to connect: " ++ msg)) ∧
    (∀ msg, r = .connectionFailure msg →
      discover r direct = .fatalDatabase
        ("unable to connect to database: " ++ msg)) := by
  cases r with
  | ok => cases direct <;> simp [discover]
  | configurationError msg =>
      cases hc : strContains notMemberMsg msg <;> cases direct <;>
        simp [discover, hc]
  | connectionFailure msg => cases direct <;> simp [discover]

/-- Witness for C8: the not-yet-member error selects the initiate path; a
plain connection failure is fatal. -/
theorem c8_discovery_classification_witness :
    discover (.configurationError
        "m0:27017 is not a member of replica set rs0") none =
      .uninitiated ∧
    discover (.connectionFailure "connection refused") none =
      .fatalDatabase ("unable to connect to database: " ++
        "connection refused") :=
  ⟨(c8_discovery_classification
      (.configurationError "m0:27017 is not a member of replica set rs0")
      none).1.mpr ⟨⟨_, rfl, by decide⟩, rfl⟩,
    (c8_discovery_classification (.connectionFailure "connection refused")
      none).2.2.2 "connection refused" rfl⟩

/-- C9: with truthy credentials the guarded authenticate step is executed
exactly once, and an `OperationFailure` raised by it is swallowed — the
run continues into the very same dispatch `k` it would have reached had
authentication succeeded. -/
theorem c9_auth_failure_swallowed (user password : Option String)
    (msg : String) (k : ReconcileOutcome)
    (hcred : (truthy user && truthy password) = true) :
    auth_attempts user password = 1 ∧
    after_auth user password (.operationFailure msg) k = .ok k ∧
    after_auth user password (.operationFailure msg) k =
      after_auth user password .ok k := by
  refine ⟨?_, ?_, ?_⟩ <;> simp [auth_attempts, after_auth, hcred]

/-- Witness for C9 at concrete credentials and a concrete continuation. -/
theorem c9_auth_failure_swallowed_witness :
    (truthy (some "admin") && truthy (some "secret")) = true ∧
    (auth_attempts (some "admin") (some "secret") = 1 ∧
      after_auth (some "admin") (some "secret")
          (.operationFailure "auth failed") ⟨.exitOk false ∅, none⟩ =
        .ok ⟨.exitOk false ∅, none⟩ ∧
      after_auth (some "admin") (some "secret")
          (.operationFailure "auth failed") ⟨.exitOk false ∅, none⟩ =
        after_auth (some "admin") (some "secret") .ok
          ⟨.exitOk false ∅, none⟩) :=
  ⟨by decide,
    c9_auth_failure_swallowed (some "admin") (some "secret") "auth failed"
      ⟨.exitOk false ∅, none⟩ (by decide)⟩
